import Mathlib

/-!
Verification of the POS checkout and statistics logic of the
Grmts_Management_System repository.

The checkout model is a shallow embedding of the POS component
(src/unnamed/part_003): `calculateTotals`, the cart aggregates
(`totalAmount` and the subtotal/discount reduces), the `change`
computation, the phone-number validation regex, `saveOrderToDatabase`
and `handleSaveOrder`.  JavaScript numbers are embedded as rationals,
which captures the exact arithmetic the spec reasons about.  The two
backend inserts are embedded through an explicit `DbOutcome` oracle that
says which insert, if any, fails; the rows an execution actually writes
are returned alongside the final UI state.

The statistics model embeds `calculateSales` and the top-product
computation of src/app/admin/dashboard/components/Statistics.tsx.
-/

namespace Grmts

/-- Cart line item, mirroring the `OrderItem` interface of the POS
component: a product snapshot plus quantity, discount percentage and the
two precomputed amounts. -/
structure CartItem where
  id : Nat
  name : String
  price : Rat
  quantity : Rat
  discount : Rat
  subtotal : Rat
  totalAfterDiscount : Rat
deriving Repr, DecidableEq

/-- `calculateTotals` of the POS component: subtotal and
total-after-discount for one line. -/
def calculateTotals (price qty disc : Rat) : Rat × Rat :=
  let subtotal := price * qty
  let discountAmount := subtotal * disc / 100
  (subtotal, subtotal - discountAmount)

/-- The `totalAmount` reduce of the POS component:
`orderItems.reduce((sum, item) => sum + item.totalAfterDiscount, 0)`. -/
def totalAmount (items : List CartItem) : Rat :=
  items.foldl (fun sum item => sum + item.totalAfterDiscount) 0

/-- The subtotal reduce used for the order header:
`orderItems.reduce((sum, item) => sum + item.subtotal, 0)`. -/
def subtotalAmount (items : List CartItem) : Rat :=
  items.foldl (fun sum item => sum + item.subtotal) 0

/-- The discount reduce used for the order header:
`orderItems.reduce((sum, item) => sum + (item.subtotal - item.totalAfterDiscount), 0)`. -/
def discountAmount (items : List CartItem) : Rat :=
  items.foldl (fun sum item => sum + (item.subtotal - item.totalAfterDiscount)) 0

/-- UI state of the POS component that the checkout flow reads and
writes.  `tenderedAmount` is kept as the numeric value of the input
(`Number(tenderedAmount)` in the source; the cleared input reads as 0). -/
structure PosState where
  orderItems : List CartItem
  customerName : String
  phoneNumber : String
  tenderedAmount : Rat
  errorMessage : Option String
  successMessage : Option String
deriving Repr, DecidableEq

/-- `change = Number(tenderedAmount) - totalAmount`. -/
def change (st : PosState) : Rat :=
  st.tenderedAmount - totalAmount st.orderItems

/-- Character class of the phone regex `[0-9+\- ]`. -/
def isPhoneChar (c : Char) : Bool :=
  c.isDigit || c == '+' || c == '-' || c == ' '

/-- Test of the anchored regex `^[0-9+\- ]+$`: at least one character,
all drawn from the class. -/
def phoneMatches (s : String) : Bool :=
  s.length > 0 && s.toList.all isPhoneChar

/-- The guard `phoneNumber && !/^[0-9+\- ]+$/.test(phoneNumber)`:
a nonempty phone number that fails the regex. -/
def phoneRejected (s : String) : Bool :=
  !s.isEmpty && !phoneMatches s

/-- Order header row as inserted into the `orders` table. -/
structure OrderRow where
  customer_name : String
  phone_number : String
  total_amount : Rat
  subtotal_amount : Rat
  discount_amount : Rat
  tendered_amount : Rat
  change_amount : Rat
  payment_status : String
deriving Repr, DecidableEq

/-- Order item row as inserted into the `order_items` table. -/
structure OrderItemRow where
  order_id : Nat
  product_id : Nat
  product_name : String
  price : Rat
  quantity : Rat
  discount_percentage : Rat
  subtotal : Rat
  total_after_discount : Rat
deriving Repr, DecidableEq

/-- Backend oracle: whether the two sequential inserts succeed, the
first (order header) insert errors, or the second (order items) insert
errors. -/
inductive DbOutcome
  | ok
  | headerFail
  | itemsFail
deriving Repr, DecidableEq

/-- The order header built by `saveOrderToDatabase` (the object literal
inserted into `orders`); `customerName || 'Cash Customer'` defaults the
empty name. -/
def orderRowOf (st : PosState) : OrderRow :=
  { customer_name := if st.customerName = "" then "Cash Customer" else st.customerName
    phone_number := st.phoneNumber
    total_amount := totalAmount st.orderItems
    subtotal_amount := subtotalAmount st.orderItems
    discount_amount := discountAmount st.orderItems
    tendered_amount := st.tenderedAmount
    change_amount := change st
    payment_status := "completed" }

/-- One element of `orderItemsToInsert`: the denormalized snapshot row
built from a cart line and tagged with the id of the new order. -/
def itemRowOf (newId : Nat) (item : CartItem) : OrderItemRow :=
  { order_id := newId
    product_id := item.id
    product_name := item.name
    price := item.price
    quantity := item.quantity
    discount_percentage := item.discount
    subtotal := item.subtotal
    total_after_discount := item.totalAfterDiscount }

/-- Result of `saveOrderToDatabase`: the boolean it resolves with
(errors are caught inside and turned into `false`), plus the rows that
were actually persisted before any failure. -/
structure SaveResult where
  success : Bool
  header : Option OrderRow
  itemRows : List OrderItemRow
deriving Repr, DecidableEq

/-- `saveOrderToDatabase`: insert the header; on header error, catch and
resolve `false` with nothing persisted.  Otherwise map the cart to
`orderItemsToInsert` and insert it; on items error, catch and resolve
`false`, leaving the already-written header behind.  On success resolve
`true`.  `newId` is the generated id returned by the header insert. -/
def saveOrderToDatabase (st : PosState) (db : DbOutcome) (newId : Nat) : SaveResult :=
  match db with
  | .headerFail => ⟨false, none, []⟩
  | .itemsFail => ⟨false, some (orderRowOf st), []⟩
  | .ok => ⟨true, some (orderRowOf st), st.orderItems.map (itemRowOf newId)⟩

/-- Final observation of one `handleSaveOrder` run: the UI state it
leaves behind and the rows it persisted. -/
structure CheckoutResult where
  state : PosState
  header : Option OrderRow
  itemRows : List OrderItemRow
deriving Repr, DecidableEq

def phoneErrorMsg : String := "Invalid phone number format"

def tenderErrorMsg : String := "Tendered amount must be greater than or equal to total amount"

def successMsg : String := "Order completed successfully!"

/-- `handleSaveOrder`: validate the phone number, then the tendered
amount, each failure setting its message and returning before any write;
otherwise clear the error message, run `saveOrderToDatabase`, and only
when it resolves `true` clear the cart and customer fields and show the
success message.  When it resolves `false` nothing further happens (the
catch branch of the source is unreachable because `saveOrderToDatabase`
catches internally and resolves `false` instead of rejecting). -/
def handleSaveOrder (st : PosState) (db : DbOutcome) (newId : Nat) : CheckoutResult :=
  if phoneRejected st.phoneNumber then
    ⟨{ st with errorMessage := some phoneErrorMsg }, none, []⟩
  else if st.tenderedAmount < totalAmount st.orderItems then
    ⟨{ st with errorMessage := some tenderErrorMsg }, none, []⟩
  else
    let saved := saveOrderToDatabase { st with errorMessage := none } db newId
    if saved.success then
      ⟨{ st with
          orderItems := [], customerName := "", phoneNumber := "",
          tenderedAmount := 0, errorMessage := none, successMessage := some successMsg },
        saved.header, saved.itemRows⟩
    else
      ⟨{ st with errorMessage := none }, saved.header, saved.itemRows⟩

/-! Statistics model (Statistics.tsx). -/

/-- Order item as read back by the statistics page (fields it uses). -/
structure StatItem where
  product_id : Nat
  quantity : Rat
deriving Repr, DecidableEq

/-- Local-calendar components of a timestamp, as observed through
`getDate()`, `getMonth()` and `getFullYear()` on both the order date and
the reference date.  Only equality of components matters, so the month
numbering convention is irrelevant. -/
structure LocalDate where
  day : Nat
  month : Nat
  year : Nat
deriving Repr, DecidableEq

/-- Period granularity of `calculateSales`. -/
inductive Period
  | day
  | month
  | year
deriving Repr, DecidableEq

/-- Order as read back by the statistics page (fields it uses);
`created_at` is embedded as its local calendar components. -/
structure StatOrder where
  total_amount : Rat
  created_at : LocalDate
  items : List StatItem
deriving Repr, DecidableEq

/-- The `isValidPeriod` test of `calculateSales`: component-wise
equality of the order date with the reference date at the chosen
granularity. -/
def matchesPeriod (period : Period) (now orderDate : LocalDate) : Bool :=
  match period with
  | .day =>
      orderDate.day == now.day && orderDate.month == now.month && orderDate.year == now.year
  | .month => orderDate.month == now.month && orderDate.year == now.year
  | .year => orderDate.year == now.year

/-- `calculateSales`: reduce over the orders, adding `total_amount`
exactly when the order date matches the reference date at the given
granularity. -/
def calculateSales (orders : List StatOrder) (period : Period) (now : LocalDate) : Rat :=
  orders.foldl
    (fun total o => if matchesPeriod period now o.created_at then total + o.total_amount else total)
    0

/-- `orders.flatMap(order => order.items)`. -/
def flatItems (orders : List StatOrder) : List StatItem :=
  (orders.map StatOrder.items).flatten

/-- Final value of the accumulation object at key `pid`: the reduce
`acc[item.product_id] = (acc[item.product_id] || 0) + item.quantity`
leaves, for each key, the sum of the quantities of the items carrying
that product id. -/
def sumQtyFor (items : List StatItem) (pid : Nat) : Rat :=
  (items.filter (fun i => i.product_id == pid)).foldl (fun s i => s + i.quantity) 0

/-- Ascending insertion into a sorted list of keys. -/
def insertKeyAsc (k : Nat) : List Nat → List Nat
  | [] => [k]
  | y :: ys => if k ≤ y then k :: y :: ys else y :: insertKeyAsc k ys

/-- Ascending sort of the key list.  `Object.entries` enumerates the
integer-like keys of the accumulation object in ascending numeric order
(they are array-index property keys), regardless of insertion order, so
the entry list is produced in ascending key order. -/
def sortKeysAsc : List Nat → List Nat
  | [] => []
  | x :: xs => insertKeyAsc x (sortKeysAsc xs)

/-- `Object.entries(productSales)`: one `(product_id, summed quantity)`
pair per distinct product id, in ascending key order. -/
def productSales (orders : List StatOrder) : List (Nat × Rat) :=
  (sortKeysAsc ((flatItems orders).map StatItem.product_id).dedup).map
    (fun k => (k, sumQtyFor (flatItems orders) k))

/-- Stable descending insertion by quantity: the new entry goes before
the first entry whose quantity it reaches, so on ties the earlier entry
of the list stays first. -/
def insertSaleDesc (x : Nat × Rat) : List (Nat × Rat) → List (Nat × Rat)
  | [] => [x]
  | y :: ys => if y.2 ≤ x.2 then x :: y :: ys else y :: insertSaleDesc x ys

/-- Stable sort of the entries by quantity, descending: the embedding of
`.sort((a, b) => b[1] - a[1])`.  `Array.prototype.sort` is stable, and a
stable sort under a given comparator is unique, so stable insertion sort
is observationally the same function. -/
def sortSalesDesc : List (Nat × Rat) → List (Nat × Rat)
  | [] => []
  | x :: xs => insertSaleDesc x (sortSalesDesc xs)

/-- `Object.entries(productSales).sort((a, b) => b[1] - a[1])[0]`: the
top `(product_id, quantity)` entry, if any. -/
def topEntry (orders : List StatOrder) : Option (Nat × Rat) :=
  (sortSalesDesc (productSales orders)).head?

/-! Concrete inputs used by the example theorems. -/

/-- Cart line from the spec scenario: price 500, quantity 2, discount 10
percent, so subtotal 1000 and total after discount 900. -/
def sampleItem : CartItem := ⟨1, "Shirt", 500, 2, 10, 1000, 900⟩

/-- Cart line with no discount: price 500, quantity 2, total 1000. -/
def plainItem : CartItem := ⟨2, "Suit", 500, 2, 0, 1000, 1000⟩

/-- Checkout state with total 1000 and tendered 999. -/
def stUnder : PosState := ⟨[plainItem], "", "", 999, none, none⟩

/-- Checkout state with total 1000 and tendered exactly 1000. -/
def stExact : PosState := ⟨[plainItem], "", "", 1000, none, none⟩

/-- Checkout state whose phone number contains letters. -/
def stBadPhone : PosState := ⟨[plainItem], "", "abc123", 500, none, none⟩

/-- Valid checkout state used to exercise backend failures. -/
def stValid : PosState := ⟨[sampleItem], "Ali", "+92-321 7456467", 900, none, none⟩

/-- Order history with a quantity tie between product id 5 (encountered
first) and product id 3. -/
def tieOrders : List StatOrder := [⟨900, ⟨15, 1, 2024⟩, [⟨5, 2⟩, ⟨3, 2⟩]⟩]

/-! General helper lemmas about the folds of the model. -/

theorem foldl_add_map {α : Type} (f : α → Rat) :
    ∀ (l : List α) (c : Rat), l.foldl (fun s x => s + f x) c = c + (l.map f).sum := by
  intro l
  induction l with
  | nil => intro c; simp
  | cons x xs ih => intro c; simp [ih]; ring

theorem foldl_add_filter {α : Type} (p : α → Bool) (f : α → Rat) :
    ∀ (l : List α) (c : Rat),
      l.foldl (fun s x => if p x then s + f x else s) c = c + ((l.filter p).map f).sum := by
  intro l
  induction l with
  | nil => intro c; simp
  | cons x xs ih =>
    intro c
    cases hp : p x
    · simp [List.filter_cons, hp, ih]
    · simp [List.filter_cons, hp, ih]
      ring

theorem totalAmount_eq_sum (l : List CartItem) :
    totalAmount l = (l.map CartItem.totalAfterDiscount).sum := by
  simpa using foldl_add_map CartItem.totalAfterDiscount l 0

theorem subtotalAmount_eq_sum (l : List CartItem) :
    subtotalAmount l = (l.map CartItem.subtotal).sum := by
  simpa using foldl_add_map CartItem.subtotal l 0

theorem discountAmount_eq_sum (l : List CartItem) :
    discountAmount l = (l.map (fun i => i.subtotal - i.totalAfterDiscount)).sum := by
  simpa using foldl_add_map (fun i : CartItem => i.subtotal - i.totalAfterDiscount) l 0

/-- Claim C3: for every price at least 0, integer quantity at least 1,
and discount in the interval from 0 to 100, `calculateTotals` returns
subtotal equal to price times quantity and total after discount equal to
price times quantity times (1 - discount / 100), and the total after
discount never exceeds the subtotal. -/
theorem calculateTotals_spec (price disc : Rat) (n : Nat)
    (hprice : 0 ≤ price) (_hqty : 1 ≤ n) (hdisc0 : 0 ≤ disc) (_hdisc1 : disc ≤ 100) :
    (calculateTotals price n disc).1 = price * n ∧
    (calculateTotals price n disc).2 = price * n * (1 - disc / 100) ∧
    (calculateTotals price n disc).2 ≤ (calculateTotals price n disc).1 := by
  refine ⟨rfl, ?_, ?_⟩
  · show price * n - price * n * disc / 100 = price * n * (1 - disc / 100)
    ring
  · show price * n - price * n * disc / 100 ≤ price * n
    have hn : (0 : Rat) ≤ (n : Rat) := by positivity
    have hs : (0 : Rat) ≤ price * n := mul_nonneg hprice hn
    nlinarith

/-- Witness for C3 at the spec scenario price 500, quantity 2, discount
10 percent. -/
theorem calculateTotals_spec_witness :
    (0 : Rat) ≤ 500 ∧ 1 ≤ 2 ∧ (0 : Rat) ≤ 10 ∧ (10 : Rat) ≤ 100 ∧
    ((calculateTotals 500 ((2 : Nat) : Rat) 10).1 = 500 * ((2 : Nat) : Rat) ∧
     (calculateTotals 500 ((2 : Nat) : Rat) 10).2 = 500 * ((2 : Nat) : Rat) * (1 - 10 / 100) ∧
     (calculateTotals 500 ((2 : Nat) : Rat) 10).2 ≤ (calculateTotals 500 ((2 : Nat) : Rat) 10).1) :=
  ⟨by norm_num, by norm_num, by norm_num, by norm_num,
   calculateTotals_spec 500 10 2 (by norm_num) (by norm_num) (by norm_num) (by norm_num)⟩

/-- Claim C6: the cart aggregates are the sums of the per-line figures
(cart subtotal is the sum of the line subtotals, cart discount the sum
of the per-line discount amounts, cart total the sum of the per-line
totals after discount), and all three are invariant under any
permutation of the cart lines. -/
theorem cart_aggregation_spec (l1 l2 : List CartItem) (h : l1.Perm l2) :
    subtotalAmount l1 = (l1.map CartItem.subtotal).sum ∧
    discountAmount l1 = (l1.map (fun i => i.subtotal - i.totalAfterDiscount)).sum ∧
    totalAmount l1 = (l1.map CartItem.totalAfterDiscount).sum ∧
    subtotalAmount l1 = subtotalAmount l2 ∧
    discountAmount l1 = discountAmount l2 ∧
    totalAmount l1 = totalAmount l2 := by
  refine ⟨subtotalAmount_eq_sum l1, discountAmount_eq_sum l1, totalAmount_eq_sum l1, ?_, ?_, ?_⟩
  · rw [subtotalAmount_eq_sum, subtotalAmount_eq_sum]
    exact (h.map CartItem.subtotal).sum_eq
  · rw [discountAmount_eq_sum, discountAmount_eq_sum]
    exact (h.map (fun i => i.subtotal - i.totalAfterDiscount)).sum_eq
  · rw [totalAmount_eq_sum, totalAmount_eq_sum]
    exact (h.map CartItem.totalAfterDiscount).sum_eq

/-- Witness for C6 on a two-line cart and its transposition. -/
theorem cart_aggregation_spec_witness :
    subtotalAmount [sampleItem, plainItem] = ([sampleItem, plainItem].map CartItem.subtotal).sum ∧
    discountAmount [sampleItem, plainItem]
      = ([sampleItem, plainItem].map (fun i => i.subtotal - i.totalAfterDiscount)).sum ∧
    totalAmount [sampleItem, plainItem]
      = ([sampleItem, plainItem].map CartItem.totalAfterDiscount).sum ∧
    subtotalAmount [sampleItem, plainItem] = subtotalAmount [plainItem, sampleItem] ∧
    discountAmount [sampleItem, plainItem] = discountAmount [plainItem, sampleItem] ∧
    totalAmount [sampleItem, plainItem] = totalAmount [plainItem, sampleItem] :=
  cart_aggregation_spec [sampleItem, plainItem] [plainItem, sampleItem]
    (List.Perm.swap plainItem sampleItem [])

/-- Claim C7: `calculateSales` sums `total_amount` over exactly the
orders whose local calendar date matches the reference date at the
chosen granularity, and on the two orders dated 2024-01-15 and
2024-02-01 with reference date 2024-01-20 the day sum is 0, the month
sum counts only the first order, and the year sum counts both. -/
theorem calculateSales_spec (orders : List StatOrder) (period : Period) (now : LocalDate)
    (a b : Rat) :
    calculateSales orders period now =
      ((orders.filter (fun o => matchesPeriod period now o.created_at)).map
        StatOrder.total_amount).sum ∧
    calculateSales [⟨a, ⟨15, 1, 2024⟩, []⟩, ⟨b, ⟨1, 2, 2024⟩, []⟩] .day ⟨20, 1, 2024⟩ = 0 ∧
    calculateSales [⟨a, ⟨15, 1, 2024⟩, []⟩, ⟨b, ⟨1, 2, 2024⟩, []⟩] .month ⟨20, 1, 2024⟩ = a ∧
    calculateSales [⟨a, ⟨15, 1, 2024⟩, []⟩, ⟨b, ⟨1, 2, 2024⟩, []⟩] .year ⟨20, 1, 2024⟩ = a + b := by
  refine ⟨?_, ?_, ?_, ?_⟩
  · simpa using
      foldl_add_filter (fun o => matchesPeriod period now o.created_at)
        StatOrder.total_amount orders 0
  · norm_num [calculateSales, matchesPeriod]
  · norm_num [calculateSales, matchesPeriod]
  · norm_num [calculateSales, matchesPeriod]

/-! Helper lemmas about the checkout flow. -/

theorem orderRowOf_errNone (st : PosState) :
    orderRowOf { st with errorMessage := none } = orderRowOf st := rfl

theorem handleSaveOrder_header_some (st : PosState) (db : DbOutcome) (newId : Nat)
    (hdr : OrderRow) (h : (handleSaveOrder st db newId).header = some hdr) :
    hdr = orderRowOf st ∧
    phoneRejected st.phoneNumber = false ∧
    ¬st.tenderedAmount < totalAmount st.orderItems := by
  cases hb : phoneRejected st.phoneNumber
  · by_cases ht : st.tenderedAmount < totalAmount st.orderItems
    · simp [handleSaveOrder, hb, ht] at h
    · cases db
      · simp [handleSaveOrder, hb, ht, saveOrderToDatabase, orderRowOf_errNone] at h
        exact ⟨h.symm, rfl, ht⟩
      · simp [handleSaveOrder, hb, ht, saveOrderToDatabase] at h
      · simp [handleSaveOrder, hb, ht, saveOrderToDatabase, orderRowOf_errNone] at h
        exact ⟨h.symm, rfl, ht⟩
  · simp [handleSaveOrder, hb] at h

theorem subtotal_split (l : List CartItem) :
    subtotalAmount l = discountAmount l + totalAmount l := by
  rw [subtotalAmount_eq_sum, discountAmount_eq_sum, totalAmount_eq_sum]
  induction l with
  | nil => simp
  | cons x xs ih =>
    simp [ih]
    ring

/-- Claim C1: with a valid (or absent) phone number, a checkout whose
tendered amount is below the cart total fails with the insufficient
tender message and persists nothing, while a checkout whose tendered
amount equals the cart total succeeds (backend permitting) with a
computed change of 0. -/
theorem checkout_tender_spec (st : PosState) (db : DbOutcome) (newId : Nat)
    (hphone : phoneRejected st.phoneNumber = false) :
    (st.tenderedAmount < totalAmount st.orderItems →
      handleSaveOrder st db newId =
        ⟨{ st with errorMessage := some tenderErrorMsg }, none, []⟩) ∧
    (st.tenderedAmount = totalAmount st.orderItems → db = DbOutcome.ok →
      (handleSaveOrder st db newId).state.successMessage = some successMsg ∧
      (handleSaveOrder st db newId).header = some (orderRowOf st) ∧
      change st = 0 ∧ (orderRowOf st).change_amount = 0) := by
  constructor
  · intro ht
    simp [handleSaveOrder, hphone, ht]
  · intro heq hdb
    subst hdb
    have hnlt : ¬st.tenderedAmount < totalAmount st.orderItems := by
      rw [heq]
      exact lt_irrefl _
    refine ⟨?_, ?_, ?_, ?_⟩
    · simp [handleSaveOrder, hphone, hnlt, saveOrderToDatabase]
    · simp [handleSaveOrder, hphone, hnlt, saveOrderToDatabase, orderRowOf_errNone]
    · simp [change, heq]
    · simp [orderRowOf, change, heq]

/-- Witness for C1: total 1000 with tendered 999 is rejected with the
tender message and nothing persisted; tendered 1000 succeeds with
change 0. -/
theorem checkout_tender_spec_witness :
    (handleSaveOrder stUnder .ok 7 =
      ⟨{ stUnder with errorMessage := some tenderErrorMsg }, none, []⟩) ∧
    ((handleSaveOrder stExact .ok 7).state.successMessage = some successMsg ∧
     (handleSaveOrder stExact .ok 7).header = some (orderRowOf stExact) ∧
     change stExact = 0 ∧ (orderRowOf stExact).change_amount = 0) := by
  constructor
  · exact (checkout_tender_spec stUnder .ok 7 (by decide)).1
      (by norm_num [stUnder, totalAmount, plainItem])
  · exact (checkout_tender_spec stExact .ok 7 (by decide)).2
      (by norm_num [stExact, totalAmount, plainItem]) rfl

/-- Claim C2: every order header persisted by a checkout satisfies
tendered at least total, change equal to tendered minus total (hence
nonnegative), and payment status completed. -/
theorem order_header_invariants (st : PosState) (db : DbOutcome) (newId : Nat)
    (hdr : OrderRow) (h : (handleSaveOrder st db newId).header = some hdr) :
    hdr.total_amount ≤ hdr.tendered_amount ∧
    hdr.change_amount = hdr.tendered_amount - hdr.total_amount ∧
    0 ≤ hdr.change_amount ∧
    hdr.payment_status = "completed" := by
  obtain ⟨rfl, -, ht⟩ := handleSaveOrder_header_some st db newId hdr h
  have hle : totalAmount st.orderItems ≤ st.tenderedAmount := not_lt.mp ht
  refine ⟨?_, ?_, ?_, rfl⟩
  · simpa [orderRowOf] using hle
  · simp [orderRowOf, change]
  · simpa [orderRowOf, change] using sub_nonneg.mpr hle

/-- Witness for C2 at the exact-tender checkout. -/
theorem order_header_invariants_witness :
    (orderRowOf stExact).total_amount ≤ (orderRowOf stExact).tendered_amount ∧
    (orderRowOf stExact).change_amount
      = (orderRowOf stExact).tendered_amount - (orderRowOf stExact).total_amount ∧
    0 ≤ (orderRowOf stExact).change_amount ∧
    (orderRowOf stExact).payment_status = "completed" :=
  order_header_invariants stExact .ok 7 (orderRowOf stExact) (by
    have hp : phoneRejected "" = false := by decide
    norm_num [handleSaveOrder, stExact, totalAmount, plainItem, saveOrderToDatabase, hp])

/-- Claim C4: a present phone number failing the pattern makes the
checkout fail with the invalid-phone message before the tender check and
before any persistence, for every tendered amount and backend outcome,
while the phone number +92-321 7456467 passes the validation. -/
theorem phone_validation_spec (st : PosState) (db : DbOutcome) (newId : Nat)
    (h : phoneRejected st.phoneNumber = true) :
    handleSaveOrder st db newId =
      ⟨{ st with errorMessage := some phoneErrorMsg }, none, []⟩ ∧
    phoneRejected "+92-321 7456467" = false :=
  ⟨by simp [handleSaveOrder, h], by decide⟩

/-- Witness for C4: the phone number abc123 is rejected even though the
tendered amount is also insufficient. -/
theorem phone_validation_spec_witness :
    handleSaveOrder stBadPhone .ok 7 =
      ⟨{ stBadPhone with errorMessage := some phoneErrorMsg }, none, []⟩ ∧
    phoneRejected "+92-321 7456467" = false :=
  phone_validation_spec stBadPhone .ok 7 (by decide)

/-- Claim C5: a successful checkout persists exactly one order item row
per cart line, each tagged with the new order id and carrying the cart
line's denormalized product name, price, quantity, discount percentage,
subtotal and total after discount. -/
theorem order_items_snapshot_spec (st : PosState) (db : DbOutcome) (newId : Nat)
    (hphone : phoneRejected st.phoneNumber = false)
    (htender : totalAmount st.orderItems ≤ st.tenderedAmount)
    (_hne : st.orderItems ≠ [])
    (hdb : db = DbOutcome.ok) :
    (handleSaveOrder st db newId).itemRows = st.orderItems.map (itemRowOf newId) ∧
    (handleSaveOrder st db newId).itemRows.length = st.orderItems.length ∧
    ∀ r ∈ (handleSaveOrder st db newId).itemRows, r.order_id = newId := by
  subst hdb
  have hnlt : ¬st.tenderedAmount < totalAmount st.orderItems := not_lt.mpr htender
  have hrows : (handleSaveOrder st .ok newId).itemRows = st.orderItems.map (itemRowOf newId) := by
    simp [handleSaveOrder, hphone, hnlt, saveOrderToDatabase]
  refine ⟨hrows, by simp [hrows], ?_⟩
  intro r hr
  rw [hrows] at hr
  obtain ⟨i, -, rfl⟩ := List.mem_map.mp hr
  rfl

/-- Witness for C5 on the one-line exact-tender checkout. -/
theorem order_items_snapshot_spec_witness :
    (handleSaveOrder stExact .ok 7).itemRows = stExact.orderItems.map (itemRowOf 7) ∧
    (handleSaveOrder stExact .ok 7).itemRows.length = stExact.orderItems.length ∧
    ∀ r ∈ (handleSaveOrder stExact .ok 7).itemRows, r.order_id = 7 :=
  order_items_snapshot_spec stExact .ok 7 (by decide)
    (by norm_num [stExact, totalAmount, plainItem]) (by decide) rfl

/-- Claim C9 (behavior at a backend write failure): after a checkout
attempt with valid inputs in which either insert fails, the cart and the
customer fields are untouched, but no error message is set either: the
failure is only logged, because the save routine resolves false instead
of rejecting, so the generic-message catch branch never runs. -/
theorem save_failure_spec (st : PosState) (db : DbOutcome) (newId : Nat)
    (hphone : phoneRejected st.phoneNumber = false)
    (htender : totalAmount st.orderItems ≤ st.tenderedAmount)
    (hdb : db ≠ DbOutcome.ok) :
    (handleSaveOrder st db newId).state.errorMessage = none ∧
    (handleSaveOrder st db newId).state.orderItems = st.orderItems ∧
    (handleSaveOrder st db newId).state.customerName = st.customerName ∧
    (handleSaveOrder st db newId).state.phoneNumber = st.phoneNumber ∧
    (handleSaveOrder st db newId).state.tenderedAmount = st.tenderedAmount ∧
    (handleSaveOrder st db newId).state.successMessage = st.successMessage := by
  have hnlt : ¬st.tenderedAmount < totalAmount st.orderItems := not_lt.mpr htender
  cases db with
  | ok => exact absurd rfl hdb
  | headerFail => simp [handleSaveOrder, hphone, hnlt, saveOrderToDatabase]
  | itemsFail => simp [handleSaveOrder, hphone, hnlt, saveOrderToDatabase]

/-- Witness for C9: a valid checkout whose header insert fails keeps the
cart and customer fields and shows no error message. -/
theorem save_failure_spec_witness :
    (handleSaveOrder stValid .headerFail 7).state.errorMessage = none ∧
    (handleSaveOrder stValid .headerFail 7).state.orderItems = stValid.orderItems ∧
    (handleSaveOrder stValid .headerFail 7).state.customerName = stValid.customerName ∧
    (handleSaveOrder stValid .headerFail 7).state.phoneNumber = stValid.phoneNumber ∧
    (handleSaveOrder stValid .headerFail 7).state.tenderedAmount = stValid.tenderedAmount ∧
    (handleSaveOrder stValid .headerFail 7).state.successMessage = stValid.successMessage :=
  save_failure_spec stValid .headerFail 7 (by decide)
    (by norm_num [stValid, totalAmount, sampleItem]) (by decide)

/-- Claim C10: every persisted order header has consistent aggregates:
its subtotal equals its discount plus its total, because all three are
folds over the same cart lines. -/
theorem header_sums_consistent (st : PosState) (db : DbOutcome) (newId : Nat)
    (hdr : OrderRow) (h : (handleSaveOrder st db newId).header = some hdr) :
    hdr.subtotal_amount = hdr.discount_amount + hdr.total_amount := by
  obtain ⟨rfl, -, -⟩ := handleSaveOrder_header_some st db newId hdr h
  simpa [orderRowOf] using subtotal_split st.orderItems

/-- Witness for C10 at the exact-tender checkout. -/
theorem header_sums_consistent_witness :
    (orderRowOf stExact).subtotal_amount
      = (orderRowOf stExact).discount_amount + (orderRowOf stExact).total_amount :=
  header_sums_consistent stExact .ok 7 (orderRowOf stExact) (by
    have hp : phoneRejected "" = false := by decide
    norm_num [handleSaveOrder, stExact, totalAmount, plainItem, saveOrderToDatabase, hp])

/-! Helper lemmas about the top-product computation. -/

theorem insertKeyAsc_perm (k : Nat) : ∀ l : List Nat, (insertKeyAsc k l).Perm (k :: l) := by
  intro l
  induction l with
  | nil => exact List.Perm.refl _
  | cons y ys ih =>
    simp only [insertKeyAsc]
    split
    · exact List.Perm.refl _
    · exact (List.Perm.cons y ih).trans (List.Perm.swap k y ys)

theorem sortKeysAsc_perm : ∀ l : List Nat, (sortKeysAsc l).Perm l := by
  intro l
  induction l with
  | nil => exact List.Perm.refl _
  | cons x xs ih => exact (insertKeyAsc_perm x (sortKeysAsc xs)).trans (List.Perm.cons x ih)

theorem insertKeyAsc_mem (k a : Nat) (l : List Nat) :
    a ∈ insertKeyAsc k l ↔ a = k ∨ a ∈ l :=
  ((insertKeyAsc_perm k l).mem_iff).trans List.mem_cons

theorem insertKeyAsc_pairwise (k : Nat) :
    ∀ l : List Nat, l.Pairwise (· ≤ ·) → (insertKeyAsc k l).Pairwise (· ≤ ·) := by
  intro l
  induction l with
  | nil =>
    intro _
    simp [insertKeyAsc]
  | cons y ys ih =>
    intro h
    obtain ⟨hy, hys⟩ := List.pairwise_cons.mp h
    simp only [insertKeyAsc]
    by_cases hk : k ≤ y
    · rw [if_pos hk]
      refine List.pairwise_cons.mpr ⟨?_, h⟩
      intro b hb
      rcases List.mem_cons.mp hb with rfl | hb2
      · exact hk
      · exact le_trans hk (hy b hb2)
    · rw [if_neg hk]
      refine List.pairwise_cons.mpr ⟨?_, ih hys⟩
      intro b hb
      rcases (insertKeyAsc_mem k b ys).mp hb with rfl | hb2
      · exact le_of_lt (Nat.lt_of_not_le hk)
      · exact hy b hb2

theorem sortKeysAsc_pairwise : ∀ l : List Nat, (sortKeysAsc l).Pairwise (· ≤ ·) := by
  intro l
  induction l with
  | nil => exact List.Pairwise.nil
  | cons x xs ih => exact insertKeyAsc_pairwise x (sortKeysAsc xs) ih

theorem pairwise_lt_of_le_nodup :
    ∀ l : List Nat, l.Pairwise (· ≤ ·) → l.Nodup → l.Pairwise (· < ·) := by
  intro l
  induction l with
  | nil =>
    intro _ _
    exact List.Pairwise.nil
  | cons x xs ih =>
    intro hs hn
    obtain ⟨h1, h2⟩ := List.pairwise_cons.mp hs
    obtain ⟨h3, h4⟩ := List.nodup_cons.mp hn
    refine List.pairwise_cons.mpr ⟨?_, ih h2 h4⟩
    intro b hb
    refine lt_of_le_of_ne (h1 b hb) ?_
    intro he
    exact h3 (he ▸ hb)

theorem productSales_key_pairwise (orders : List StatOrder) :
    (productSales orders).Pairwise (fun p q => p.1 < q.1) := by
  unfold productSales
  rw [List.pairwise_map]
  exact pairwise_lt_of_le_nodup _ (sortKeysAsc_pairwise _)
    ((sortKeysAsc_perm _).nodup_iff.mpr (List.nodup_dedup _))

theorem mem_productSales (orders : List StatOrder) (p : Nat × Rat) :
    p ∈ productSales orders ↔
      p.1 ∈ (flatItems orders).map StatItem.product_id ∧
      p.2 = sumQtyFor (flatItems orders) p.1 := by
  unfold productSales
  rw [List.mem_map]
  constructor
  · rintro ⟨k, hk, rfl⟩
    exact ⟨List.mem_dedup.mp (((sortKeysAsc_perm _).mem_iff).mp hk), rfl⟩
  · rintro ⟨hmem, hval⟩
    refine ⟨p.1, ((sortKeysAsc_perm _).mem_iff).mpr (List.mem_dedup.mpr hmem), ?_⟩
    exact Prod.ext_iff.mpr ⟨rfl, hval.symm⟩

theorem insertSaleDesc_ne_nil (x : Nat × Rat) : ∀ l, insertSaleDesc x l ≠ [] := by
  intro l
  cases l with
  | nil => simp [insertSaleDesc]
  | cons y ys =>
    simp only [insertSaleDesc]
    split
    · simp
    · simp

theorem head_sortSalesDesc_spec :
    ∀ e : List (Nat × Rat), e.Pairwise (fun p q => p.1 < q.1) →
      ∀ m, (sortSalesDesc e).head? = some m →
        m ∈ e ∧ ∀ p ∈ e, p.2 ≤ m.2 ∧ (p.2 = m.2 → m.1 ≤ p.1) := by
  intro e
  induction e with
  | nil =>
    intro _ m hm
    simp [sortSalesDesc] at hm
  | cons x xs ih =>
    intro hpw m hm
    obtain ⟨hx, hxs⟩ := List.pairwise_cons.mp hpw
    simp only [sortSalesDesc] at hm
    rcases hsx : sortSalesDesc xs with _ | ⟨y, t⟩
    · have hxs0 : xs = [] := by
        cases xs with
        | nil => rfl
        | cons a as => exact absurd hsx (insertSaleDesc_ne_nil a (sortSalesDesc as))
      subst hxs0
      simp [sortSalesDesc, insertSaleDesc] at hm
      subst hm
      refine ⟨by simp, ?_⟩
      intro p hp
      simp at hp
      subst hp
      exact ⟨le_refl _, fun _ => le_refl _⟩
    · rw [hsx] at hm
      have hyhead : (sortSalesDesc xs).head? = some y := by
        rw [hsx]
        rfl
      obtain ⟨hymem, hybnd⟩ := ih hxs y hyhead
      simp only [insertSaleDesc] at hm
      by_cases hc : y.2 ≤ x.2
      · rw [if_pos hc] at hm
        simp at hm
        subst hm
        refine ⟨List.mem_cons_self x xs, ?_⟩
        intro p hp
        rcases List.mem_cons.mp hp with rfl | hp2
        · exact ⟨le_refl _, fun _ => le_refl _⟩
        · exact ⟨le_trans (hybnd p hp2).1 hc, fun _ => le_of_lt (hx p hp2)⟩
      · rw [if_neg hc] at hm
        simp at hm
        subst hm
        have hlt : x.2 < y.2 := not_le.mp hc
        refine ⟨List.mem_cons_of_mem x hymem, ?_⟩
        intro p hp
        rcases List.mem_cons.mp hp with rfl | hp2
        · exact ⟨le_of_lt hlt, fun he => absurd he (ne_of_lt hlt)⟩
        · exact hybnd p hp2

/-- Claim C8 (amended): the top entry groups all order items by product
id and sums their quantities, and the returned product attains the
maximum summed quantity; when several products tie for the maximum the
one with the smallest product id is returned, because the accumulation
object enumerates its integer-like keys in ascending numeric order and
the stable sort preserves that order on ties. -/
theorem topEntry_spec (orders : List StatOrder) (k : Nat) (q : Rat)
    (h : topEntry orders = some (k, q)) :
    k ∈ (flatItems orders).map StatItem.product_id ∧
    q = sumQtyFor (flatItems orders) k ∧
    ∀ pid ∈ (flatItems orders).map StatItem.product_id,
      sumQtyFor (flatItems orders) pid ≤ q ∧
      (sumQtyFor (flatItems orders) pid = q → k ≤ pid) := by
  obtain ⟨hmem, hbnd⟩ :=
    head_sortSalesDesc_spec (productSales orders) (productSales_key_pairwise orders) (k, q) h
  obtain ⟨hk, hq⟩ := (mem_productSales orders (k, q)).mp hmem
  refine ⟨hk, hq, ?_⟩
  intro pid hpid
  exact hbnd (pid, sumQtyFor (flatItems orders) pid)
    ((mem_productSales orders (pid, sumQtyFor (flatItems orders) pid)).mpr ⟨hpid, rfl⟩)

/-- Witness for C8 on the tied history: the top entry is product 3 with
quantity 2, which attains the maximum, and every tied product id is at
least 3. -/
theorem topEntry_spec_witness :
    3 ∈ (flatItems tieOrders).map StatItem.product_id ∧
    (2 : Rat) = sumQtyFor (flatItems tieOrders) 3 ∧
    ∀ pid ∈ (flatItems tieOrders).map StatItem.product_id,
      sumQtyFor (flatItems tieOrders) pid ≤ 2 ∧
      (sumQtyFor (flatItems tieOrders) pid = 2 → 3 ≤ pid) :=
  topEntry_spec tieOrders 3 2 (by
    norm_num [topEntry, productSales, flatItems, sumQtyFor, sortKeysAsc, insertKeyAsc,
      sortSalesDesc, insertSaleDesc, tieOrders, List.dedup])

/-- Counterexample to C8 as stated: in `tieOrders` products 5 and 3 tie
at summed quantity 2 and product id 5 is encountered first during
aggregation, yet the computation returns product id 3, so ties are not
resolved by first encounter. -/
theorem topEntry_tie_counterexample :
    topEntry tieOrders = some (3, 2) ∧
    (flatItems tieOrders).map StatItem.product_id = [5, 3] ∧
    sumQtyFor (flatItems tieOrders) 5 = 2 ∧
    sumQtyFor (flatItems tieOrders) 3 = 2 := by
  refine ⟨?_, ?_, ?_, ?_⟩
  · norm_num [topEntry, productSales, flatItems, sumQtyFor, sortKeysAsc, insertKeyAsc,
      sortSalesDesc, insertSaleDesc, tieOrders, List.dedup]
  · decide
  · norm_num [sumQtyFor, flatItems, tieOrders]
  · norm_num [sumQtyFor, flatItems, tieOrders]

end Grmts
